import Mathlib

/-!
Verification of the per-session SQL sandbox lifecycle and usage-metered
gating of the AISQLTrainer backend, shallowly embedded in Lean.

The embedding follows the source files:
  backend/routes/sql_practice.py      (sandbox registry, schema provisioning,
                                       population, grading, teardown)
  backend/utils/subscription_service.py  (plans, quota checks, usage counters)
  backend/models/database.py          (record shapes and column defaults)

External effects (the DuckDB engine, the LLM agents, SQLAlchemy sessions) are
modelled as explicit oracles and state records, so every definition is an
executable Lean function over those inputs.
-/

namespace SQLTrainer

/-- Embeds the Python string method s.lower() as a character-by-character
lowercase map (Char.toLower agrees with Python on the ASCII range used by
the difficulty tags). -/
def str_lower (s : String) : String := ⟨s.data.map Char.toLower⟩

/-! ## Query Grading Engine: difficulty weighting

Source: backend/routes/sql_practice.py, check_correct (lines 271-292).
The route builds the dict difficulty_multiplier = {"basic": 5,
"intermediate": 10, "advanced": 20} and computes
  points = (1 if is_correct else 0) * difficulty_multiplier.get(request.difficulty.lower(), 0)
-/

/-- Embeds the Python dict lookup difficulty_multiplier.get(s, 0) from
check_correct: 5 for "basic", 10 for "intermediate", 20 for "advanced",
default 0 for any other key. -/
def difficulty_multiplier (s : String) : Nat :=
  if s = "basic" then 5
  else if s = "intermediate" then 10
  else if s = "advanced" then 20
  else 0

/-- Embeds the points computation of check_correct:
(1 if is_correct else 0) * difficulty_multiplier.get(difficulty.lower(), 0). -/
def gradePoints (is_correct : Bool) (difficulty : String) : Nat :=
  (if is_correct then 1 else 0) * difficulty_multiplier (str_lower difficulty)

/-! ## Synthetic Data Population Protocol: row-count acceptance heuristic

Source: backend/routes/sql_practice.py, populate_tables (lines 404-413).
After executing the generated population code the route counts rows per table:
  num_tables = len(counts); num_with_data = sum(1 for c in counts.values() if c > 1)
  if num_tables == 0 or num_with_data / num_tables <= 0.5: raise HTTPException(..., counts)
The Python float comparison n / d <= 0.5 with n, d small nonnegative integers
is exact and equals 2 * n <= d, which is how the guard is embedded here. -/

/-- Result of the population validation step: acceptance, or a rejection that
carries the per-table row counts (the counts dict embedded in the
HTTPException detail string of the source). -/
def populate_validate (counts : List (String × Nat)) :
    Except (List (String × Nat)) Unit :=
  if counts.length = 0 ∨ 2 * (counts.filter (fun p => 1 < p.2)).length ≤ counts.length
  then .error counts
  else .ok ()

/-! ## Sandbox Connection Registry

Source: backend/routes/sql_practice.py, get_duckdb_conn (lines 44-71).
The module-level dict _duckdb_conn_cache maps (user_id, session_id) to a
DuckDB connection. get_duckdb_conn probes a cached connection with
SELECT 1; a live one is returned as is, a dead one is closed (close errors
swallowed), popped, and replaced by a freshly created connection.

The embedding abstracts connection objects as numeric handles: the registry
state carries the cache map, a counter supplying the identity of the next
freshly created connection (object identity), and the liveness of every
handle. Creating a connection yields a live handle; closing and the probe
have no further modelled effect. The function is total: a dead cached
handle is healed, never surfaced as an error. -/

/-- State of the connection registry: the cache keyed by
(user_id, session_id), the identity of the next connection to be created,
and the liveness of each handle. -/
structure RegState where
  cache : String × String → Option Nat
  nextId : Nat
  live : Nat → Bool

/-- Well-formed registry: every cached handle was created earlier, so its
identity is below the fresh counter. -/
def RegWF (st : RegState) : Prop :=
  ∀ k c, st.cache k = some c → c < st.nextId

/-- Embeds duckdb.connect plus the cache insert of get_duckdb_conn: a fresh
live handle is created, stored under the key, and returned. -/
def conn_fresh (st : RegState) (key : String × String) : Nat × RegState :=
  (st.nextId,
    { cache := fun k => if k = key then some st.nextId else st.cache k,
      nextId := st.nextId + 1,
      live := fun h => if h = st.nextId then true else st.live h })

/-- Embeds get_duckdb_conn: return the cached handle when its liveness probe
succeeds; otherwise close it quietly, pop it from the cache, and create a
replacement. -/
def get_duckdb_conn (st : RegState) (user_id session_id : String) :
    Nat × RegState :=
  let key := (user_id, session_id)
  match st.cache key with
  | some conn =>
      if st.live conn then (conn, st)
      else
        conn_fresh { st with cache := fun k => if k = key then none else st.cache k } key
  | none => conn_fresh st key

/-! ## Repair-bounded generation protocols

Source: backend/routes/sql_practice.py, generate_schema (lines 154-207) and
populate_tables (lines 388-418). Each protocol makes one generation call,
one apply/execution attempt, and on failure exactly one repair call followed
by one final attempt; a second failure propagates to the enclosing handler.
The LLM agents and the sandbox execution are oracles; the run returns the
tally of generation calls and apply attempts next to the outcome. -/

/-- Tally of capability invocations and apply/execution attempts in one
protocol run. -/
structure RunLog where
  genCalls : Nat
  applyAttempts : Nat
deriving Repr, DecidableEq

/-- Record one generation-capability invocation. -/
def logGen (l : RunLog) : RunLog := { l with genCalls := l.genCalls + 1 }

/-- Record one apply/execution attempt. -/
def logApply (l : RunLog) : RunLog := { l with applyAttempts := l.applyAttempts + 1 }

/-- Embeds the Python slice s[:n] used to truncate error text. -/
def strTake (s : String) (n : Nat) : String := ⟨s.data.take n⟩

/-- Embeds the cleaning applied before conn.execute in generate_schema:
strip code fences and replace line breaks by spaces. -/
def clean_schema_sql (s : String) : String :=
  ((s.replace "```" "").replace "\n" " ").replace "\r" " "

/-- Embeds the cleaning applied before exec in populate_tables: strip code
fences and the string "python". -/
def clean_population_code (s : String) : String :=
  (s.replace "```" "").replace "python" ""

/-- Embeds the generation/apply loop of generate_schema:
create_schema_agent, apply; on failure redo_schema_agent with the error
truncated to 200 characters, apply once more; a second failure is the
outcome of the whole operation. -/
def generate_schema_run (create_schema_agent : String → String)
    (redo_schema_agent : String → String → String → String)
    (execute : String → Except String Unit) (prompt : String) :
    RunLog × Except String String :=
  let l0 : RunLog := { genCalls := 0, applyAttempts := 0 }
  let response := create_schema_agent prompt
  let l1 := logGen l0
  match execute (clean_schema_sql response) with
  | .ok _ => (logApply l1, .ok response)
  | .error e =>
      let response2 := redo_schema_agent prompt response (strTake e 200)
      let l2 := logGen (logApply l1)
      match execute (clean_schema_sql response2) with
      | .ok _ => (logApply l2, .ok response2)
      | .error e2 => (logApply l2, .error e2)

/-- Embeds the generation/exec loop of populate_tables:
populate_table_agent, exec; on failure code_rewritter_agent with the error
truncated to 200 characters, exec once more; a second failure is the outcome.
After a successful execution the row-count heuristic decides acceptance;
table_counts gives the per-table row counts left by the executed code. -/
def populate_tables_run (populate_table_agent : String → String)
    (code_rewritter_agent : String → String → String → String)
    (execPy : String → Except String Unit)
    (table_counts : String → List (String × Nat))
    (table_schema : String) : RunLog × Except String String :=
  let l0 : RunLog := { genCalls := 0, applyAttempts := 0 }
  let code := clean_population_code (populate_table_agent table_schema)
  let l1 := logGen l0
  match execPy code with
  | .ok _ =>
      match populate_validate (table_counts code) with
      | .ok _ =>
          (logApply l1, .ok "Successfully populated tables! with code_retry: False")
      | .error _ =>
          (logApply l1, .error "Not enough tables have more than 1 row")
  | .error e =>
      let code2 := clean_population_code
        (code_rewritter_agent code table_schema (strTake e 200))
      let l2 := logGen (logApply l1)
      match execPy code2 with
      | .ok _ =>
          match populate_validate (table_counts code2) with
          | .ok _ =>
              (logApply l2, .ok "Successfully populated tables! with code_retry: True")
          | .error _ =>
              (logApply l2, .error "Not enough tables have more than 1 row")
      | .error e2 => (logApply l2, .error ("Code execution failed: " ++ e2))

/-! ## Practice session log and cumulative score

Source: backend/routes/sql_practice.py, check_correct (lines 304-319) and
execute_sql (lines 363-371). The session row keeps a JSON list `queries`;
check_correct appends a full attempt dict and then recomputes
  total_score = sum(q.get("points", 0) for q in queries if isinstance(q, dict)),
while execute_sql appends a dict carrying only the query text and a
timestamp (so its points default to 0 in the sum). -/

/-- Embeds the attempt dict appended by check_correct. -/
structure QueryAttempt where
  question : String
  sql : String
  is_correct : Bool
  explanation : String
  table_head : String
  points : Nat
  difficulty : String
  checked_at : String
deriving Repr, DecidableEq

/-- Entries that can appear in the session's queries list: a graded attempt
appended by check_correct, or the bare dict appended by execute_sql. -/
inductive LogEntry where
  | attempt (a : QueryAttempt)
  | executed (query : String) (executed_at : String)
deriving Repr, DecidableEq

/-- Embeds q.get("points", 0): a graded attempt carries its points; the
execute_sql dict has no points key and defaults to 0. -/
def entryPoints : LogEntry → Nat
  | .attempt a => a.points
  | .executed _ _ => 0

/-- Session row as touched by the grading path: the queries list and the
total_score column. -/
structure PracticeSession where
  queries : List LogEntry
  total_score : Nat
deriving Repr, DecidableEq

/-- Embeds lines 305-318 of check_correct: append the attempt and set
total_score to the sum of points over the whole list. -/
def check_correct_update (sess : PracticeSession) (a : QueryAttempt) :
    PracticeSession :=
  let queries := sess.queries ++ [LogEntry.attempt a]
  { queries := queries,
    total_score := (queries.map entryPoints).sum }

/-! ## Sandbox teardown and reset

Source: backend/routes/sql_practice.py, delete_duckdb (lines 421-449) and the
reset loop of generate_schema (lines 159-164). The reset loop drops each
existing table inside try/except pass, ignoring failures. delete_duckdb
instead collects per-table drop failures into an errors list, closes the
connection, and raises HTTPException(500) whenever the list is non-empty;
that exception (and any close error) is caught by the enclosing handler and
re-raised as HTTPException(500, "Failed to drop tables: ..."), with
str(HTTPException) rendering as "500: <detail>".

The DuckDB effects are oracles: dropErr gives the error message raised by
dropping a given table (none when the drop succeeds) and closeErr the error
raised by conn.close(). -/

/-- Embeds the reset loop of generate_schema: drop every table, swallowing
individual failures; returns the tables still present afterwards (those
whose drop raised). The function is total — no failure escapes the loop. -/
def reset_loop (tables : List String) (dropErr : String → Option String) :
    List String :=
  match tables with
  | [] => []
  | t :: rest =>
      match dropErr t with
      | none => reset_loop rest dropErr
      | some _ => t :: reset_loop rest dropErr

/-- Embeds the error-collecting drop loop of delete_duckdb. -/
def drop_errors (tables : List String) (dropErr : String → Option String) :
    List String :=
  match tables with
  | [] => []
  | t :: rest =>
      match dropErr t with
      | none => drop_errors rest dropErr
      | some e => ("Failed to drop " ++ t ++ ": " ++ e) :: drop_errors rest dropErr

/-- Embeds delete_duckdb: drop all tables collecting failures, close the
connection, and fail with HTTP 500 when the close raised or any drop failed;
the inner HTTPException is re-wrapped by the outer handler. -/
def delete_duckdb (tables : List String) (dropErr : String → Option String)
    (closeErr : Option String) : Except String String :=
  let errors := drop_errors tables dropErr
  match closeErr with
  | some e => .error ("Failed to drop tables: " ++ e)
  | none =>
      if errors = [] then .ok "All tables dropped successfully."
      else .error ("Failed to drop tables: 500: Some tables could not be dropped: "
          ++ String.intercalate "; " errors)

/-! ## Subscription service: plans, quota checks, usage counters

Source: backend/utils/subscription_service.py and the record shapes of
backend/models/database.py. The SQLAlchemy session is a state record; the
current UTC time enters only through its (year, month) pair and through the
current_period_end comparison, modelled as the Boolean period_end_in_future
of each subscription row. os.getenv("DEFAULT_PLAN", "free") is the
env_default parameter. -/

/-- Plan limits block of a PLAN_CONFIGS entry. -/
structure PlanLimits where
  max_schemas_per_month : Nat
  max_competitions_per_month : Nat
deriving Repr, DecidableEq

/-- Plan features block of a PLAN_CONFIGS entry. -/
structure PlanFeatures where
  can_download_certificates : Bool
  can_get_master_certificate : Bool
  ai_model_tier : String
deriving Repr, DecidableEq

/-- One entry of the PLAN_CONFIGS dict. -/
structure PlanConfig where
  name : String
  display_name : String
  limits : PlanLimits
  features : PlanFeatures
deriving Repr, DecidableEq

/-- The free entry of PLAN_CONFIGS. -/
def free_plan_config : PlanConfig :=
  { name := "free", display_name := "Free Plan",
    limits := { max_schemas_per_month := 5, max_competitions_per_month := 3 },
    features := { can_download_certificates := false,
                  can_get_master_certificate := false,
                  ai_model_tier := "gpt-4o-mini" } }

/-- The pro entry of PLAN_CONFIGS. -/
def pro_plan_config : PlanConfig :=
  { name := "pro", display_name := "Pro Plan",
    limits := { max_schemas_per_month := 15, max_competitions_per_month := 15 },
    features := { can_download_certificates := true,
                  can_get_master_certificate := true,
                  ai_model_tier := "gpt-5" } }

/-- The max entry of PLAN_CONFIGS. -/
def max_plan_config : PlanConfig :=
  { name := "max", display_name := "Max Plan",
    limits := { max_schemas_per_month := 50, max_competitions_per_month := 50 },
    features := { can_download_certificates := true,
                  can_get_master_certificate := true,
                  ai_model_tier := "gpt-5" } }

/-- Embeds the PLAN_CONFIGS dict lookup. -/
def PLAN_CONFIGS (name : String) : Option PlanConfig :=
  if name = "free" then some free_plan_config
  else if name = "pro" then some pro_plan_config
  else if name = "max" then some max_plan_config
  else none

/-- Subscriptions table row (the columns the service reads). -/
structure SubscriptionRec where
  user_id : String
  plan : String
  status : String
  period_end_in_future : Bool
  selected_model_index : Nat
deriving Repr, DecidableEq

/-- A user_usage table row as committed to the store. Committed rows always
carry concrete counter values: get_user_usage inserts explicit zeros, and the
column default 0 is applied at INSERT for any other path that reaches a
flush. -/
structure UsageRec where
  user_id : String
  year : Nat
  month : Nat
  schemas_generated : Nat
  competitions_entered : Nat
deriving Repr, DecidableEq

/-- The slice of the relational store the subscription service touches. -/
structure DBState where
  users : List String
  subscriptions : List SubscriptionRec
  usage : List UsageRec
deriving Repr, DecidableEq

/-- Plan dict returned by get_user_plan or _get_free_plan
(selected_model_index is absent from the _get_free_plan dict). -/
structure PlanView where
  name : String
  display_name : String
  limits : PlanLimits
  features : PlanFeatures
  selected_model_index : Option Nat
deriving Repr, DecidableEq

/-- Builds the plan dict from a subscription row:
PLAN_CONFIGS.get(subscription.plan, PLAN_CONFIGS["free"]). -/
def plan_view_of (sub : SubscriptionRec) : PlanView :=
  let cfg := (PLAN_CONFIGS sub.plan).getD free_plan_config
  { name := sub.plan, display_name := cfg.display_name,
    limits := cfg.limits, features := cfg.features,
    selected_model_index := some sub.selected_model_index }

/-- Embeds _get_free_plan: PLAN_CONFIGS[os.getenv("DEFAULT_PLAN",
"free").lower()], a plain dict indexing that raises KeyError when the
configured default names no plan. -/
def get_free_plan (env_default : String) : Except String PlanView :=
  match PLAN_CONFIGS (str_lower env_default) with
  | some cfg =>
      .ok { name := str_lower env_default, display_name := cfg.display_name,
            limits := cfg.limits, features := cfg.features,
            selected_model_index := none }
  | none => .error "KeyError"

/-- Embeds get_user_plan: a missing user falls back to _get_free_plan; an
active unexpired subscription supplies the plan; a user without one gets a
fresh default subscription committed to the store. -/
def get_user_plan (env_default : String) (db : DBState) (user_id : String) :
    Except String (PlanView × DBState) :=
  if user_id ∈ db.users then
    match db.subscriptions.find? (fun s =>
        s.user_id == user_id && s.status == "active" && s.period_end_in_future) with
    | some sub => .ok (plan_view_of sub, db)
    | none =>
        let sub : SubscriptionRec :=
          { user_id := user_id, plan := str_lower env_default,
            status := "active", period_end_in_future := true,
            selected_model_index := 0 }
        .ok (plan_view_of sub,
             { db with subscriptions := db.subscriptions ++ [sub] })
  else
    (get_free_plan env_default).map (fun pv => (pv, db))

/-- Looks up the current-month usage row, as the filtered query of
get_user_usage and increment_usage does. -/
def find_usage (db : DBState) (user_id : String) (now : Nat × Nat) :
    Option UsageRec :=
  db.usage.find? (fun r =>
    r.user_id == user_id && r.year == now.1 && r.month == now.2)

/-- A zero-initialized usage row for the given user and period. -/
def zero_usage (user_id : String) (now : Nat × Nat) : UsageRec :=
  { user_id := user_id, year := now.1, month := now.2,
    schemas_generated := 0, competitions_entered := 0 }

/-- Embeds get_user_usage: read the current-month counters, creating a
zero-initialized row when the period has not been seen. -/
def get_user_usage (db : DBState) (user_id : String) (now : Nat × Nat) :
    (Nat × Nat) × DBState :=
  match find_usage db user_id now with
  | some r => ((r.schemas_generated, r.competitions_entered), db)
  | none => ((0, 0), { db with usage := db.usage ++ [zero_usage user_id now] })

/-- Result dict of can_use_feature. -/
structure CheckResult where
  allowed : Bool
  reason : String
  limit : Nat
  used : Nat
deriving Repr, DecidableEq

/-- Embeds can_use_feature: resolve the plan, read the usage, then compare
count against limit for the counted features or read the plan flag for the
certificate features. -/
def can_use_feature (env_default : String) (db : DBState) (user_id : String)
    (now : Nat × Nat) (feature : String) :
    Except String (CheckResult × DBState) :=
  match get_user_plan env_default db user_id with
  | .error e => .error e
  | .ok (plan, db1) =>
      let usagePair := get_user_usage db1 user_id now
      let usg := usagePair.1
      let db2 := usagePair.2
      if feature = "generate_schema" then
        let limit := plan.limits.max_schemas_per_month
        .ok ({ allowed := usg.1 < limit,
               reason := if usg.1 < limit then ""
                 else "Monthly schema limit reached (" ++ toString limit ++ ")",
               limit := limit, used := usg.1 }, db2)
      else if feature = "competition" then
        let limit := plan.limits.max_competitions_per_month
        .ok ({ allowed := usg.2 < limit,
               reason := if usg.2 < limit then ""
                 else "Monthly competition limit reached (" ++ toString limit ++ ")",
               limit := limit, used := usg.2 }, db2)
      else if feature = "download_certificate" then
        .ok ({ allowed := plan.features.can_download_certificates,
               reason := if plan.features.can_download_certificates then ""
                 else "Certificate download requires Pro or Max plan",
               limit := 0, used := 0 }, db2)
      else if feature = "master_certificate" then
        .ok ({ allowed := plan.features.can_get_master_certificate,
               reason := if plan.features.can_get_master_certificate then ""
                 else "Master certificate requires Pro or Max plan",
               limit := 0, used := 0 }, db2)
      else
        .ok ({ allowed := false, reason := "", limit := 0, used := 0 }, db2)

/-- Updates the first row satisfying the predicate, leaving the rest alone
(the .first() row is the one mutated). -/
def update_first (l : List UsageRec) (p : UsageRec → Bool)
    (f : UsageRec → UsageRec) : List UsageRec :=
  match l with
  | [] => []
  | r :: rest => if p r then f r :: rest else r :: update_first rest p f

/-- Embeds increment_usage. When a current-month row exists, the feature's
counter is incremented in place and committed. When none exists, the code
builds UserUsage(user_id=..., year=..., month=...) without counter values;
the SQLAlchemy column default 0 is applied only at INSERT flush, so the
in-memory attributes are still None and the subsequent += 1 raises a
TypeError for either counted feature. An unrecognized feature skips the
increment and commits the fresh row, which receives the column defaults. -/
def increment_usage (db : DBState) (user_id : String) (now : Nat × Nat)
    (feature : String) : Except String DBState :=
  let isCurrent := fun (r : UsageRec) =>
    r.user_id == user_id && r.year == now.1 && r.month == now.2
  match find_usage db user_id now with
  | some _ =>
      if feature = "generate_schema" then
        .ok { db with usage := (update_first db.usage isCurrent
                (fun r => { r with schemas_generated := r.schemas_generated + 1 })) }
      else if feature = "competition" then
        .ok { db with usage := (update_first db.usage isCurrent
                (fun r => { r with competitions_entered := r.competitions_entered + 1 })) }
      else .ok db
  | none =>
      if feature = "generate_schema" ∨ feature = "competition" then
        .error "TypeError: unsupported operand type(s) for +=: NoneType and int"
      else .ok { db with usage := db.usage ++ [zero_usage user_id now] }

/-! ## Claim theorems -/

/-- C5. Difficulty weighting in check_correct: points are
(1 if correct else 0) times the fixed table {basic 5, intermediate 10,
advanced 20}; an incorrect attempt yields 0 at any difficulty, and a
difficulty whose lowercase form is outside the table yields 0 even when the
verdict is correct. -/
theorem check_correct_difficulty_weighting (c : Bool) (d : String) :
    gradePoints true "basic" = 5 ∧
    gradePoints true "intermediate" = 10 ∧
    gradePoints true "advanced" = 20 ∧
    gradePoints false d = 0 ∧
    (str_lower d ≠ "basic" → str_lower d ≠ "intermediate" →
      str_lower d ≠ "advanced" → gradePoints c d = 0) := by
  refine ⟨rfl, rfl, rfl, by simp [gradePoints], ?_⟩
  intro h1 h2 h3
  simp [gradePoints, difficulty_multiplier, h1, h2, h3]

/-- Witness for C5 at the unrecognized difficulty "Xyz". -/
theorem check_correct_difficulty_weighting_witness :
    gradePoints true "Xyz" = 0 :=
  (check_correct_difficulty_weighting true "Xyz").2.2.2.2
    (by decide) (by decide) (by decide)

/-- C10. Case-insensitive difficulty matching in check_correct: the difficulty
is lowercased before the weight lookup, so any case variant scores like its
lowercase form, and a correct answer scores 0 exactly when the lowercase form
is outside the weight table. -/
theorem check_correct_case_insensitive (c : Bool) (d : String) :
    (str_lower d = "basic" → gradePoints c d = gradePoints c "basic") ∧
    (str_lower d = "intermediate" →
      gradePoints c d = gradePoints c "intermediate") ∧
    (str_lower d = "advanced" → gradePoints c d = gradePoints c "advanced") ∧
    gradePoints true "Basic" = 5 ∧
    gradePoints true "ADVANCED" = 20 ∧
    (gradePoints true d = 0 ↔
      str_lower d ≠ "basic" ∧ str_lower d ≠ "intermediate" ∧
        str_lower d ≠ "advanced") := by
  refine ⟨?_, ?_, ?_, by decide, by decide, ?_⟩
  · intro h; simp [gradePoints, h]; rfl
  · intro h; simp [gradePoints, h]; rfl
  · intro h; simp [gradePoints, h]; rfl
  · simp only [gradePoints, if_pos trivial, one_mul, difficulty_multiplier]
    split_ifs with h1 h2 h3 <;> simp_all

/-- Witness for C10 at the case variant "Basic". -/
theorem check_correct_case_insensitive_witness :
    gradePoints true "Basic" = gradePoints true "basic" :=
  (check_correct_case_insensitive true "Basic").1 (by decide)

/-- C6. Population heuristic of populate_tables: over a non-empty table set,
population is accepted exactly when strictly more than half of the tables
hold more than 1 row; [0, 2, 2, 2] is accepted, [0, 0, 2, 2] is rejected, and
every rejection carries the per-table row counts. -/
theorem populate_tables_heuristic (counts : List (String × Nat))
    (h : counts ≠ []) :
    (populate_validate counts = .ok () ↔
      counts.length < 2 * (counts.filter (fun p => 1 < p.2)).length) ∧
    (populate_validate counts = .ok () ∨
      populate_validate counts = .error counts) ∧
    populate_validate [("a", 0), ("b", 2), ("c", 2), ("d", 2)] = .ok () ∧
    populate_validate [("a", 0), ("b", 0), ("c", 2), ("d", 2)] =
      .error [("a", 0), ("b", 0), ("c", 2), ("d", 2)] := by
  have hlen : counts.length ≠ 0 := by simpa using h
  refine ⟨?_, ?_, rfl, rfl⟩ <;> unfold populate_validate
  · split_ifs with hc
    · constructor
      · intro hok; cases hok
      · intro hlt; omega
    · constructor
      · intro _; omega
      · intro _; rfl
  · split_ifs <;> simp

/-- Witness for C6 at a singleton populated table. -/
theorem populate_tables_heuristic_witness :
    populate_validate [("t", 2)] = .ok () :=
  (populate_tables_heuristic [("t", 2)] (by decide)).1.mpr (by decide)

/-- Helper: a cached handle that passes the liveness probe is returned as is,
with the registry untouched. -/
lemma get_duckdb_conn_of_live (st : RegState) (u s : String) (c : Nat)
    (h1 : st.cache (u, s) = some c) (h2 : st.live c = true) :
    get_duckdb_conn st u s = (c, st) := by
  simp [get_duckdb_conn, h1, h2]

/-- Helper: after any acquire, the cache maps the key to the returned
handle. -/
lemma get_duckdb_conn_cache_self (st : RegState) (u s : String) :
    (get_duckdb_conn st u s).2.cache (u, s) =
      some (get_duckdb_conn st u s).1 := by
  unfold get_duckdb_conn conn_fresh
  cases hc : st.cache (u, s) with
  | none => simp [hc]
  | some c =>
      by_cases hl : st.live c <;> simp [hc, hl]

/-- C4. Registry identity of get_duckdb_conn: a cached handle passing the
liveness probe is returned unchanged, so two consecutive acquires of a live
handle agree; a cached handle failing the probe is removed and replaced by a
different, live handle under the same key, with no error surfaced. -/
theorem get_duckdb_conn_registry_identity (st : RegState) (u s : String)
    (c : Nat) :
    (st.cache (u, s) = some c → st.live c = true →
      get_duckdb_conn st u s = (c, st)) ∧
    ((get_duckdb_conn st u s).2.live (get_duckdb_conn st u s).1 = true →
      get_duckdb_conn (get_duckdb_conn st u s).2 u s = get_duckdb_conn st u s) ∧
    (RegWF st → st.cache (u, s) = some c → st.live c = false →
      (get_duckdb_conn st u s).1 ≠ c ∧
      (get_duckdb_conn st u s).2.live (get_duckdb_conn st u s).1 = true ∧
      (get_duckdb_conn st u s).2.cache (u, s) =
        some (get_duckdb_conn st u s).1) := by
  refine ⟨fun h1 h2 => get_duckdb_conn_of_live st u s c h1 h2, ?_, ?_⟩
  · intro hlive
    have := get_duckdb_conn_of_live (get_duckdb_conn st u s).2 u s
      (get_duckdb_conn st u s).1 (get_duckdb_conn_cache_self st u s) hlive
    simpa using this
  · intro hwf h1 h2
    have hlt : c < st.nextId := hwf _ _ h1
    have hfst : (get_duckdb_conn st u s).1 = st.nextId := by
      simp [get_duckdb_conn, conn_fresh, h1, h2]
    refine ⟨?_, ?_, get_duckdb_conn_cache_self st u s⟩
    · rw [hfst]; omega
    · simp [get_duckdb_conn, conn_fresh, h1, h2]

/-- Witness for C4: a live cached handle is returned as is, and a dead cached
handle in a well-formed registry is replaced by a different live one. -/
theorem get_duckdb_conn_registry_identity_witness :
    get_duckdb_conn
        { cache := fun k => if k = ("u", "s") then some 0 else none,
          nextId := 1, live := fun _ => true } "u" "s"
      = (0, { cache := fun k => if k = ("u", "s") then some 0 else none,
              nextId := 1, live := fun _ => true }) ∧
    (get_duckdb_conn
        { cache := fun k => if k = ("u", "s") then some 0 else none,
          nextId := 1, live := fun _ => false } "u" "s").1 ≠ 0 := by
  constructor
  · exact (get_duckdb_conn_registry_identity _ "u" "s" 0).1 (by simp) rfl
  · refine ((get_duckdb_conn_registry_identity _ "u" "s" 0).2.2 ?_ (by simp) rfl).1
    intro k c h
    by_cases hk : k = ("u", "s")
    · rw [hk] at h; simp at h; show c < 1; omega
    · simp [hk] at h

/-- C1. Repair bound: one invocation of the schema provisioning protocol or
of the population protocol makes at most 2 generation-capability calls and at
most 2 apply/execution attempts; when both apply attempts fail the run ends
in a terminal failure after exactly 2 calls and 2 attempts, with no further
retries. -/
theorem generation_repair_bound (cs : String → String)
    (rs : String → String → String → String)
    (execute : String → Except String Unit)
    (pa : String → String) (cr : String → String → String → String)
    (execPy : String → Except String Unit)
    (tc : String → List (String × Nat)) (prompt table_schema : String) :
    (generate_schema_run cs rs execute prompt).1.genCalls ≤ 2 ∧
    (generate_schema_run cs rs execute prompt).1.applyAttempts ≤ 2 ∧
    (populate_tables_run pa cr execPy tc table_schema).1.genCalls ≤ 2 ∧
    (populate_tables_run pa cr execPy tc table_schema).1.applyAttempts ≤ 2 ∧
    (∀ e1 e2, execute (clean_schema_sql (cs prompt)) = .error e1 →
      execute (clean_schema_sql (rs prompt (cs prompt) (strTake e1 200)))
          = .error e2 →
      generate_schema_run cs rs execute prompt
        = ({ genCalls := 2, applyAttempts := 2 }, .error e2)) ∧
    (∀ e1 e2,
      execPy (clean_population_code (pa table_schema)) = .error e1 →
      execPy (clean_population_code
          (cr (clean_population_code (pa table_schema)) table_schema
            (strTake e1 200))) = .error e2 →
      populate_tables_run pa cr execPy tc table_schema
        = ({ genCalls := 2, applyAttempts := 2 },
           .error ("Code execution failed: " ++ e2))) := by
  have hgen : (generate_schema_run cs rs execute prompt).1.genCalls ≤ 2 ∧
      (generate_schema_run cs rs execute prompt).1.applyAttempts ≤ 2 := by
    unfold generate_schema_run
    cases h1 : execute (clean_schema_sql (cs prompt)) with
    | ok _ => simp [h1, logGen, logApply]
    | error e =>
        cases h2 : execute
            (clean_schema_sql (rs prompt (cs prompt) (strTake e 200))) with
        | ok _ => simp [h1, h2, logGen, logApply]
        | error e2 => simp [h1, h2, logGen, logApply]
  have hpop : (populate_tables_run pa cr execPy tc table_schema).1.genCalls ≤ 2 ∧
      (populate_tables_run pa cr execPy tc table_schema).1.applyAttempts ≤ 2 := by
    unfold populate_tables_run
    cases h1 : execPy (clean_population_code (pa table_schema)) with
    | ok _ =>
        cases h3 : populate_validate
            (tc (clean_population_code (pa table_schema))) with
        | ok _ => simp [h1, h3, logGen, logApply]
        | error _ => simp [h1, h3, logGen, logApply]
    | error e =>
        cases h2 : execPy (clean_population_code
            (cr (clean_population_code (pa table_schema)) table_schema
              (strTake e 200))) with
        | ok _ =>
            cases h3 : populate_validate
                (tc (clean_population_code
                  (cr (clean_population_code (pa table_schema)) table_schema
                    (strTake e 200)))) with
            | ok _ => simp [h1, h2, h3, logGen, logApply]
            | error _ => simp [h1, h2, h3, logGen, logApply]
        | error e2 => simp [h1, h2, logGen, logApply]
  refine ⟨hgen.1, hgen.2, hpop.1, hpop.2, ?_, ?_⟩
  · intro e1 e2 h1 h2
    simp [generate_schema_run, h1, h2, logGen, logApply]
  · intro e1 e2 h1 h2
    simp [populate_tables_run, h1, h2, logGen, logApply]

/-- Witness for C1: with an apply step that always fails, the schema
provisioning run stops after exactly 2 generation calls and 2 apply
attempts, failing terminally. -/
theorem generation_repair_bound_witness :
    generate_schema_run (fun _ => "CREATE TABLE t (x INT)")
        (fun _ _ _ => "CREATE TABLE t (x INTEGER)")
        (fun _ => .error "Parser Error") "books and authors"
      = ({ genCalls := 2, applyAttempts := 2 }, .error "Parser Error") :=
  (generation_repair_bound (fun _ => "CREATE TABLE t (x INT)")
      (fun _ _ _ => "CREATE TABLE t (x INTEGER)")
      (fun _ => .error "Parser Error")
      (fun _ => "code") (fun _ _ _ => "code2") (fun _ => .ok ())
      (fun _ => []) "books and authors" "s").2.2.2.2.1
    "Parser Error" "Parser Error" rfl rfl

/-- C2. Score recomputation in check_correct: after the grading update the
session's total_score equals the sum of points over the whole query log; the
new score is the old log's point sum plus the new attempt's points, computed
from the log alone — the previous total_score value is irrelevant, so the
score is recomputed, never incremented independently. -/
theorem check_correct_score_recomputation (sess : PracticeSession)
    (a : QueryAttempt) (t : Nat) :
    (check_correct_update sess a).total_score
        = ((check_correct_update sess a).queries.map entryPoints).sum ∧
    (check_correct_update sess a).total_score
        = (sess.queries.map entryPoints).sum + a.points ∧
    check_correct_update { sess with total_score := t } a
        = check_correct_update sess a := by
  refine ⟨rfl, ?_, rfl⟩
  simp [check_correct_update, entryPoints]

/-- C9 counterexample: a single failing table drop makes delete_duckdb raise
an HTTP 500 to the caller, so teardown does not swallow per-table drop
failures. -/
theorem delete_duckdb_drop_failure_raises :
    delete_duckdb ["t1"] (fun _ => some "io error") none
      = .error ("Failed to drop tables: 500: Some tables could not be dropped: "
          ++ "Failed to drop t1: io error") := rfl

/-- C9 amended: the reset loop before schema regeneration ignores per-table
drop failures and always completes, dropping every droppable table; teardown
(delete_duckdb) succeeds exactly when every drop and the close succeeded,
and otherwise raises an HTTP 500 to the caller (close errors included). -/
theorem teardown_error_reporting (tables : List String)
    (dropErr : String → Option String) (closeErr : Option String) :
    reset_loop tables dropErr = tables.filter (fun t => (dropErr t).isSome) ∧
    (delete_duckdb tables dropErr closeErr = .ok "All tables dropped successfully."
      ↔ drop_errors tables dropErr = [] ∧ closeErr = none) ∧
    (∀ e, closeErr = some e →
      delete_duckdb tables dropErr closeErr
        = .error ("Failed to drop tables: " ++ e)) := by
  refine ⟨?_, ?_, ?_⟩
  · induction tables with
    | nil => rfl
    | cons t rest ih =>
        unfold reset_loop
        cases hd : dropErr t <;> simp [hd, ih]
  · unfold delete_duckdb
    cases closeErr with
    | some e => simp
    | none =>
        by_cases he : drop_errors tables dropErr = [] <;> simp [he]
  · intro e he
    subst he
    rfl

/-- Witness for C9 amended: with no tables and a failing close, teardown
raises the wrapped close error. -/
theorem teardown_error_reporting_witness :
    delete_duckdb [] (fun _ => none) (some "database is locked")
      = .error ("Failed to drop tables: " ++ "database is locked") :=
  (teardown_error_reporting [] (fun _ => none) (some "database is locked")).2.2
    "database is locked" rfl

/-- Helper: plan resolution never touches the usage table. -/
lemma get_user_plan_usage_eq (env : String) (db : DBState) (u : String)
    (pv : PlanView) (db1 : DBState)
    (h : get_user_plan env db u = .ok (pv, db1)) : db1.usage = db.usage := by
  unfold get_user_plan at h
  by_cases hu : u ∈ db.users
  · simp only [if_pos hu] at h
    cases hf : db.subscriptions.find? (fun s =>
        s.user_id == u && s.status == "active" && s.period_end_in_future) with
    | some sub =>
        rw [hf] at h
        simp only [Except.ok.injEq, Prod.mk.injEq] at h
        rw [← h.2]
    | none =>
        rw [hf] at h
        simp only [Except.ok.injEq, Prod.mk.injEq] at h
        rw [← h.2]
  · simp only [if_neg hu] at h
    cases hg : get_free_plan env with
    | ok pv2 =>
        rw [hg] at h
        simp only [Except.map, Except.ok.injEq, Prod.mk.injEq] at h
        rw [← h.2]
    | error e =>
        rw [hg] at h
        simp [Except.map] at h

/-- Helper: find_usage only reads the usage list. -/
lemma find_usage_congr (db db' : DBState) (u : String) (now : Nat × Nat)
    (h : db'.usage = db.usage) : find_usage db' u now = find_usage db u now := by
  unfold find_usage
  rw [h]

/-- C7. Quota check semantics of can_use_feature for the counted features:
the result reports allowed exactly when the used count is below the plan
limit (so used == limit is denied with both numbers reported), the used
count is read from the current-month counter, and the check never changes
any usage counter's value — it at most appends one zero-initialized row for
a not-yet-seen period. -/
theorem can_use_feature_check_semantics (env : String) (db : DBState)
    (u : String) (now : Nat × Nat) (feature : String) (res : CheckResult)
    (db' : DBState)
    (hfeat : feature = "generate_schema" ∨ feature = "competition")
    (h : can_use_feature env db u now feature = .ok (res, db')) :
    res.allowed = decide (res.used < res.limit) ∧
    (res.used = res.limit → res.allowed = false) ∧
    res.used = (match find_usage db u now with
      | some r => if feature = "generate_schema" then r.schemas_generated
                  else r.competitions_entered
      | none => 0) ∧
    (db'.usage = db.usage ∨ db'.usage = db.usage ++ [zero_usage u now]) ∧
    (∀ plan db1, get_user_plan env db u = .ok (plan, db1) →
      res.limit = (if feature = "generate_schema"
        then plan.limits.max_schemas_per_month
        else plan.limits.max_competitions_per_month)) := by
  unfold can_use_feature at h
  cases hp : get_user_plan env db u with
  | error e => rw [hp] at h; cases h
  | ok pd =>
      obtain ⟨plan, db1⟩ := pd
      rw [hp] at h
      have husage : db1.usage = db.usage :=
        get_user_plan_usage_eq env db u plan db1 hp
      have hfind : find_usage db1 u now = find_usage db u now :=
        find_usage_congr db db1 u now husage
      simp only [] at h
      have main : res.allowed = decide (res.used < res.limit) ∧
          res.used = (match find_usage db u now with
            | some r => if feature = "generate_schema" then r.schemas_generated
                        else r.competitions_entered
            | none => 0) ∧
          (db'.usage = db.usage ∨ db'.usage = db.usage ++ [zero_usage u now]) ∧
          res.limit = (if feature = "generate_schema"
            then plan.limits.max_schemas_per_month
            else plan.limits.max_competitions_per_month) := by
        rcases hfeat with hf | hf
        · subst hf
          unfold get_user_usage at h
          cases hr : find_usage db1 u now with
          | some r =>
              rw [hr] at h
              simp only [reduceIte, Except.ok.injEq, Prod.mk.injEq] at h
              obtain ⟨hres, hdb⟩ := h
              subst hres; subst hdb
              refine ⟨rfl, ?_, Or.inl husage, by simp⟩
              rw [← hfind, hr]
              simp
          | none =>
              rw [hr] at h
              simp only [reduceIte, Except.ok.injEq, Prod.mk.injEq] at h
              obtain ⟨hres, hdb⟩ := h
              subst hres; subst hdb
              refine ⟨rfl, ?_, Or.inr (by simp [husage]), by simp⟩
              rw [← hfind, hr]
        · subst hf
          unfold get_user_usage at h
          rw [if_neg (show ¬ ("competition" : String) = "generate_schema" by decide),
            if_pos rfl] at h
          cases hr : find_usage db1 u now with
          | some r =>
              rw [hr] at h
              simp only [Except.ok.injEq, Prod.mk.injEq] at h
              obtain ⟨hres, hdb⟩ := h
              subst hres; subst hdb
              refine ⟨rfl, ?_, Or.inl husage,
                by rw [if_neg (show ¬ ("competition" : String) = "generate_schema" by decide)]⟩
              rw [← hfind, hr]
              simp
          | none =>
              rw [hr] at h
              simp only [Except.ok.injEq, Prod.mk.injEq] at h
              obtain ⟨hres, hdb⟩ := h
              subst hres; subst hdb
              refine ⟨rfl, ?_, Or.inr (by simp [husage]),
                by rw [if_neg (show ¬ ("competition" : String) = "generate_schema" by decide)]⟩
              rw [← hfind, hr]
      refine ⟨main.1, ?_, main.2.1, main.2.2.1, ?_⟩
      · intro hle
        rw [main.1, hle]
        simp
      · intro plan2 db2 hp2
        injection hp2 with hpair
        injection hpair with h1 h2
        subst h1
        exact main.2.2.2

/-- Witness for C7: a fresh user checking generate_schema under the free
plan is allowed with limit 5 and used 0. -/
theorem can_use_feature_check_semantics_witness :
    ({ allowed := true, reason := "", limit := 5, used := 0 } : CheckResult).allowed
      = decide
          (({ allowed := true, reason := "", limit := 5, used := 0 } : CheckResult).used
            < ({ allowed := true, reason := "", limit := 5, used := 0 } : CheckResult).limit) :=
  (can_use_feature_check_semantics "free"
      { users := ["u1"], subscriptions := [], usage := [] } "u1" (2026, 10)
      "generate_schema"
      { allowed := true, reason := "", limit := 5, used := 0 }
      { users := ["u1"],
        subscriptions := [{ user_id := "u1", plan := "free", status := "active",
                            period_end_in_future := true,
                            selected_model_index := 0 }],
        usage := [zero_usage "u1" (2026, 10)] }
      (Or.inl rfl) rfl).1

/-- C3 evaluation at the failing input: for a user id absent from the users
table (plan resolution yields no usable record), the quota check falls back
to the default free plan and grants access instead of denying it. -/
theorem can_use_feature_fallback_grants :
    can_use_feature "free" { users := [], subscriptions := [], usage := [] }
        "ghost" (2026, 10) "generate_schema"
      = .ok ({ allowed := true, reason := "", limit := 5, used := 0 },
             { users := [], subscriptions := [],
               usage := [zero_usage "ghost" (2026, 10)] }) := rfl

/-- Helper: find? returns the first element satisfying the predicate. -/
lemma find_first_split (l1 : List UsageRec) (r : UsageRec) (l2 : List UsageRec)
    (p : UsageRec → Bool) (h1 : ∀ x ∈ l1, p x = false) (hr : p r = true) :
    (l1 ++ r :: l2).find? p = some r := by
  induction l1 with
  | nil => rw [List.nil_append, List.find?_cons_of_pos _ hr]
  | cons a t ih =>
      have ha : p a = false := h1 a (List.mem_cons_self a t)
      rw [List.cons_append, List.find?_cons_of_neg _ (by simp [ha])]
      exact ih fun x hx => h1 x (List.mem_cons_of_mem a hx)

/-- Helper: update_first rewrites the first matching row and nothing else. -/
lemma update_first_append (l1 : List UsageRec) (r : UsageRec)
    (l2 : List UsageRec) (p : UsageRec → Bool) (f : UsageRec → UsageRec)
    (h1 : ∀ x ∈ l1, p x = false) (hr : p r = true) :
    update_first (l1 ++ r :: l2) p f = l1 ++ f r :: l2 := by
  induction l1 with
  | nil => simp [update_first, hr]
  | cons a t ih =>
      have ha : p a = false := h1 a (List.mem_cons_self a t)
      simp only [List.cons_append, update_first, ha, Bool.false_eq_true,
        if_false, List.cons.injEq, true_and]
      exact ih fun x hx => h1 x (List.mem_cons_of_mem a hx)

/-- Supporting fact for C8: when a current-month row already exists in the
committed store, increment_usage bumps exactly the first matching row's
schemas_generated by 1 and leaves every other row — other users, other
periods, and the row's other counter — untouched. -/
theorem increment_usage_existing_row (db : DBState) (u : String)
    (now : Nat × Nat) (l1 l2 : List UsageRec) (r : UsageRec)
    (hsplit : db.usage = l1 ++ r :: l2)
    (h1 : ∀ x ∈ l1,
      (x.user_id == u && x.year == now.1 && x.month == now.2) = false)
    (hr : (r.user_id == u && r.year == now.1 && r.month == now.2) = true) :
    increment_usage db u now "generate_schema"
      = .ok { db with usage :=
          l1 ++ { r with schemas_generated := r.schemas_generated + 1 } :: l2 } := by
  have hfind : find_usage db u now = some r := by
    unfold find_usage
    rw [hsplit]
    exact find_first_split l1 r l2 _ h1 hr
  unfold increment_usage
  rw [hfind]
  simp only [reduceIte]
  rw [hsplit, update_first_append l1 r l2 _ _ h1 hr]

/-- C8 evaluation at the failing input: a lone increment for a period with no
usage row yet crashes with a TypeError instead of creating the row and
incrementing the counter to 1, because the SQLAlchemy column default 0 is
applied only at INSERT flush and the in-memory attribute is still None. -/
theorem increment_usage_fresh_period_crash :
    increment_usage { users := ["u1"], subscriptions := [], usage := [] }
        "u1" (2026, 10) "generate_schema"
      = .error "TypeError: unsupported operand type(s) for +=: NoneType and int" := rfl

end SQLTrainer
